import Mathlib

/-!
Verification of the configuration-schema and status-constant modules of the
`mountd-planewave` telescope mount daemon.

The development shallowly embeds the two Python modules:
* `rockit/mount/planewave/constants.py` (namespace `Rockit`), and the
  historical variant `warwick/observatory/lmount/constants.py`
  (namespace `Warwick`);
* `rockit/mount/planewave/config.py` (the `CONFIG_SCHEMA` document and the
  `Config` loader).

Python dictionaries are embedded as association lists, dictionary indexing
`d[k]` as `List.lookup` (so an indexing step that could raise `KeyError`
is explicit as an `Option`), and fallible paths return `Option`/`Except`.
-/

/- Modelled from the spec: the terminal-formatting constants of the external
`TFmt` helper (`rockit.common` / `warwick.observatory.common`, not part of
this repository).  The spec describes them as a bold-weight annotation, a
colour annotation, and a matching close/reset annotation; the concrete ANSI
escape strings chosen here stand in for the external values, and no theorem
below depends on their exact contents. -/
namespace TFmt

def Red : String := "\x1b[91m"

def Yellow : String := "\x1b[93m"

def Green : String := "\x1b[92m"

def Bold : String := "\x1b[1m"

def Clear : String := "\x1b[0m"

end TFmt

namespace Rockit

namespace CommandStatus

/-- Named numeric return codes (`CommandStatus` constants). -/
def Succeeded : Int := 0

def Failed : Int := 1

def Blocked : Int := 2

def InvalidControlIP : Int := 5

def MountControlNotRunning : Int := 9

def MountNotInitialized : Int := 10

def MountNotHomed : Int := 11

def MountNotDisabled : Int := 14

def UnknownParkPosition : Int := 15

def OutsideHALimits : Int := 20

def OutsideDecLimits : Int := 21

/-- The `CommandStatus._messages` dictionary. -/
def messages : List (Int × String) :=
  [(1, "error: command failed"),
   (2, "error: another command is already running"),
   (5, "error: command not accepted from this IP"),
   (9, "error: PWI4 software is not running"),
   (10, "error: mount has not been initialized"),
   (11, "error: mount has not been homed"),
   (14, "error: mount has already been initialized"),
   (15, "error: unknown park position"),
   (20, "error: requested coordinates outside HA limits"),
   (21, "error: requested coordinates outside Dec limits"),
   (-100, "error: terminated by user"),
   (-101, "error: unable to communicate with telescope daemon"),
   (-102, "error: command not available for this telescope")]

/-- `CommandStatus.message`: membership test on `_messages`, then the
dictionary access (which cannot fail after the test, hence the `Option`),
otherwise the generated f-string fallback. -/
def message (error_code : Int) : Option String :=
  if (List.lookup error_code messages).isSome then
    List.lookup error_code messages
  else
    some ("error: Unknown error code " ++ toString error_code)

end CommandStatus

namespace MountState

/-- The five mount lifecycle states, `range(5)`. -/
def Disabled : Int := 0

def Parked : Int := 1

def Stopped : Int := 2

def Slewing : Int := 3

def Tracking : Int := 4

/-- The `MountState._labels` dictionary. -/
def labels : List (Int × String) :=
  [(0, "DISABLED"), (1, "PARKED"), (2, "STOPPED"), (3, "SLEWING"),
   (4, "TRACKING")]

/-- The `MountState._formats` dictionary. -/
def formats : List (Int × String) :=
  [(0, TFmt.Red ++ TFmt.Bold),
   (1, TFmt.Yellow ++ TFmt.Bold),
   (2, TFmt.Red ++ TFmt.Bold),
   (3, TFmt.Yellow ++ TFmt.Bold),
   (4, TFmt.Green ++ TFmt.Bold)]

/-- `MountState.label`.  The formatted branch guards with
`status in cls._formats and status in cls._formats` (the test is literally
duplicated in the source) and then indexes both `_formats` and `_labels`;
each raw index is an `Option` lookup, so an index not covered by the guard
would surface as `none` (Python: `KeyError`). -/
def label (status : Int) (formatting : Bool) : Option String :=
  if formatting then
    if ((List.lookup status formats).isSome
        && (List.lookup status formats).isSome) then
      match List.lookup status formats, List.lookup status labels with
      | some f, some l => some (f ++ l ++ TFmt.Clear)
      | _, _ => none
    else
      some (TFmt.Red ++ TFmt.Bold ++ "UNKNOWN" ++ TFmt.Clear)
  else
    if (List.lookup status labels).isSome then
      List.lookup status labels
    else
      some "UNKNOWN"

end MountState

end Rockit

namespace Warwick

namespace CommandStatus

/-- The `CommandStatus._messages` dictionary of the historical
`warwick.observatory.lmount` variant. -/
def messages : List (Int × String) :=
  [(1, "error: command failed"),
   (2, "error: another command is already running"),
   (5, "error: command not accepted from this IP"),
   (9, "error: PWI4 software is not running"),
   (10, "error: mount has not been initialized"),
   (11, "error: mount has not been homed"),
   (12, "error: mount is not stopped"),
   (14, "error: mount has already been initialized"),
   (20, "error: requested coordinates outside HA limits"),
   (21, "error: requested coordinates outside Dec limits"),
   (-100, "error: terminated by user"),
   (-101, "error: unable to communicate with telescope daemon"),
   (-102, "error: command not available for this telescope")]

/-- `CommandStatus.message` of the warwick variant; the fallback uses
`str.format`, which renders an integer identically to the f-string of the
rockit variant. -/
def message (error_code : Int) : Option String :=
  if (List.lookup error_code messages).isSome then
    List.lookup error_code messages
  else
    some ("error: Unknown error code " ++ toString error_code)

end CommandStatus

namespace MountState

/-- The four mount lifecycle states of the warwick variant, `range(4)`. -/
def labels : List (Int × String) :=
  [(0, "DISABLED"), (1, "STOPPED"), (2, "SLEWING"), (3, "TRACKING")]

/-- The warwick `MountState._formats` dictionary. -/
def formats : List (Int × String) :=
  [(0, TFmt.Red ++ TFmt.Bold),
   (1, TFmt.Red ++ TFmt.Bold),
   (2, TFmt.Yellow ++ TFmt.Bold),
   (3, TFmt.Green ++ TFmt.Bold)]

/-- The warwick `MountState.label`, identical in structure to the rockit
variant. -/
def label (status : Int) (formatting : Bool) : Option String :=
  if formatting then
    if ((List.lookup status formats).isSome
        && (List.lookup status formats).isSome) then
      match List.lookup status formats, List.lookup status labels with
      | some f, some l => some (f ++ l ++ TFmt.Clear)
      | _, _ => none
    else
      some (TFmt.Red ++ TFmt.Bold ++ "UNKNOWN" ++ TFmt.Clear)
  else
    if (List.lookup status labels).isSome then
      List.lookup status labels
    else
      some "UNKNOWN"

end MountState

end Warwick

/-- JSON values as produced by `json.load`.  Numbers are embedded as
rationals; object fields are an association list (Python dictionaries have
unique keys). -/
inductive JValue where
  | jnull
  | jbool (b : Bool)
  | jnum (q : Rat)
  | jstr (s : String)
  | jarr (items : List JValue)
  | jobj (fields : List (String × JValue))

/-- The subset of JSON-Schema used by `CONFIG_SCHEMA`, plus the two custom
validator tags (`daemon_name`, `machine_name`) that the loader registers.
`sNumber` records, besides the JSON-Schema keyword `minimum`, the two keys
`min` and `max` exactly as they appear in the source schema; `min` and `max`
are not JSON-Schema keywords.  `sObject` is an object with
`additionalProperties: False`; `sMap` is an object whose
`additionalProperties` is itself a schema. -/
inductive Schema where
  | sString (daemon_name machine_name : Bool)
  | sInteger
  | sNumber (minimum min max : Option Rat)
  | sArray (items : Schema) (minItems maxItems : Option Nat)
  | sObject (required : List String) (properties : List (String × Schema))
  | sMap (additionalProperties : Schema)

/-- The `required` key list of `CONFIG_SCHEMA`. -/
def requiredKeys : List String :=
  ["daemon", "log_name", "control_machines", "pwi_host", "pwi_port",
   "pwi_timeout", "slew_timeout", "slew_poll_interval", "home_timeout",
   "home_poll_interval", "ha_soft_limits", "dec_soft_limits",
   "park_positions"]

/-- The `properties` table of `CONFIG_SCHEMA`. -/
def topProperties : List (String × Schema) :=
  [("daemon", .sString true false),
     ("log_name", .sString false false),
     ("control_machines", .sArray (.sString false true) none none),
     ("pwi_host", .sString false false),
     ("pwi_port", .sInteger),
     ("pwi_timeout", .sNumber (some 0) none none),
     ("slew_timeout", .sNumber (some 0) none none),
     ("slew_poll_interval", .sNumber (some 0) none none),
     ("home_timeout", .sNumber (some 0) none none),
     ("home_poll_interval", .sNumber (some 0) none none),
     ("ha_soft_limits",
       .sArray (.sNumber none (some (-180)) (some 180)) (some 2) (some 2)),
     ("dec_soft_limits",
       .sArray (.sNumber none (some (-90)) (some 90)) (some 2) (some 2)),
   ("park_positions",
     .sMap (.sObject ["desc", "alt", "az"]
       [("desc", .sString false false),
        ("alt", .sNumber none (some 0) (some 90)),
        ("az", .sNumber none (some 0) (some 360))]))]

/-- The `CONFIG_SCHEMA` document of `rockit/mount/planewave/config.py`,
transcribed constructor for constructor. -/
def CONFIG_SCHEMA : Schema := .sObject requiredKeys topProperties

mutual

/-- Modelled from the spec: the generic schema-validation engine
(`rockit.common.validation`, external to this repository), instantiated with
the two custom validators `daemon_name` / `machine_name` ("is this a known
daemon identity name" / "is this a known machine/host name", checked against
the supplied registry name lists when `checkNames` is set).  The engine
implements the standard JSON-Schema keywords appearing in the schema —
`type`, `required`, `properties`, `additionalProperties`, `items`,
`minItems`, `maxItems`, `minimum` — and, like any generic JSON-Schema
validator, ignores the non-keywords `min` and `max`. -/
def checkSchema (checkNames : Bool) (dnames mnames : List String) :
    Schema → JValue → Bool
  | .sString dn mn, .jstr s =>
      !checkNames || ((!dn || dnames.contains s) && (!mn || mnames.contains s))
  | .sString _ _, _ => false
  | .sInteger, .jnum q => q.den == 1
  | .sInteger, _ => false
  | .sNumber minimum _ _, .jnum q =>
      match minimum with
      | some m => decide (m ≤ q)
      | none => true
  | .sNumber _ _ _, _ => false
  | .sArray items mnI mxI, .jarr xs =>
      (match mnI with | some n => decide (n ≤ xs.length) | none => true)
      && (match mxI with | some n => decide (xs.length ≤ n) | none => true)
      && checkItems checkNames dnames mnames items xs
  | .sArray _ _ _, _ => false
  | .sObject required props, .jobj fs =>
      required.all (fun k => (List.lookup k fs).isSome)
      && checkFields checkNames dnames mnames props fs
  | .sObject _ _, _ => false
  | .sMap valueSchema, .jobj fs =>
      checkVals checkNames dnames mnames valueSchema fs
  | .sMap _, _ => false

/-- Every element of an array instance validates against the `items`
schema. -/
def checkItems (checkNames : Bool) (dnames mnames : List String)
    (s : Schema) : List JValue → Bool
  | [] => true
  | v :: rest =>
      checkSchema checkNames dnames mnames s v
      && checkItems checkNames dnames mnames s rest

/-- Every field of an object instance is listed in `properties`
(`additionalProperties: False`) and validates against its property
schema. -/
def checkFields (checkNames : Bool) (dnames mnames : List String)
    (props : List (String × Schema)) : List (String × JValue) → Bool
  | [] => true
  | (k, v) :: rest =>
      (match List.lookup k props with
       | some s => checkSchema checkNames dnames mnames s v
       | none => false)
      && checkFields checkNames dnames mnames props rest

/-- Every value of an object instance validates against the
`additionalProperties` schema. -/
def checkVals (checkNames : Bool) (dnames mnames : List String)
    (s : Schema) : List (String × JValue) → Bool
  | [] => true
  | (_, v) :: rest =>
      checkSchema checkNames dnames mnames s v
      && checkVals checkNames dnames mnames s rest

end

/-- Validation errors surfaced by `load` (spec section 7): a structural
schema violation, or a daemon/machine name not present in its registry. -/
inductive ConfigError where
  | schemaViolation
  | unknownReferenceName
deriving DecidableEq

/-- Errors of the whole loader: a validation error, or one of the raw Python
faults that field access after validation could in principle raise
(`KeyError`, a type mismatch, `AttributeError` from `getattr`). -/
inductive LoadError where
  | invalid (e : ConfigError)
  | keyError
  | typeError
  | attributeError
deriving DecidableEq

/-- Modelled from the spec: `validation.validate_config(config_json,
CONFIG_SCHEMA, {daemon_name, machine_name})`.  The document is checked
against the schema with the custom name validators enabled; a failure is
classified as `unknownReferenceName` when the document is structurally valid
and only a name check failed, and as `schemaViolation` otherwise. -/
def validate_config (dnames mnames : List String) (doc : JValue) :
    Except ConfigError Unit :=
  if checkSchema true dnames mnames CONFIG_SCHEMA doc then .ok ()
  else if checkSchema false dnames mnames CONFIG_SCHEMA doc then
    .error .unknownReferenceName
  else .error .schemaViolation

/-- `getattr(registry, name)`: resolve a name against a registry
(association list of names to opaque handles), raising `AttributeError`
when absent. -/
def getattr (registry : List (String × Nat)) (name : String) :
    Except LoadError Nat :=
  match List.lookup name registry with
  | some h => .ok h
  | none => .error .attributeError

/-- `config_json[k]`: dictionary indexing, raising `KeyError` when the key
is absent. -/
def getItem (fs : List (String × JValue)) (k : String) :
    Except LoadError JValue :=
  match List.lookup k fs with
  | some v => .ok v
  | none => .error .keyError

/-- View a JSON value as the string the schema guarantees it to be. -/
def asString : JValue → Except LoadError String
  | .jstr s => .ok s
  | _ => .error .typeError

/-- View a JSON value as the integer the schema guarantees it to be. -/
def asInt : JValue → Except LoadError Int
  | .jnum q => if q.den = 1 then .ok q.num else .error .typeError
  | _ => .error .typeError

/-- View a JSON value as the number the schema guarantees it to be. -/
def asNumber : JValue → Except LoadError Rat
  | .jnum q => .ok q
  | _ => .error .typeError

/-- View a JSON value as an object's field list. -/
def asFields : JValue → Except LoadError (List (String × JValue))
  | .jobj fs => .ok fs
  | _ => .error .typeError

/-- View a JSON value as an array's element list. -/
def asList : JValue → Except LoadError (List JValue)
  | .jarr xs => .ok xs
  | _ => .error .typeError

/-- `[getattr(IP, machine) for machine in config_json['control_machines']]`:
resolve each machine name, in order. -/
def resolveMachines (registry : List (String × Nat)) :
    List JValue → Except LoadError (List Nat)
  | [] => .ok []
  | v :: rest => do
      let s ← asString v
      let ip ← getattr registry s
      let restIps ← resolveMachines registry rest
      .ok (ip :: restIps)

/-- The `Config` object.  `daemon` and `control_ips` hold resolved registry
handles; the composite fields hold the raw JSON values exactly as the
source assigns them (`self.ha_soft_limits = config_json['ha_soft_limits']`
and so on). -/
structure Config where
  daemon : Nat
  log_name : String
  control_ips : List Nat
  pwi_host : String
  pwi_port : Int
  pwi_timeout : Rat
  slew_timeout : Rat
  slew_poll_interval : Rat
  home_timeout : Rat
  home_poll_interval : Rat
  ha_soft_limits : JValue
  dec_soft_limits : JValue
  park_positions : JValue

/-- `Config.__init__` after the file has been read and parsed (the file
open and `json.load` steps are outside this embedding): validate the parsed
document, then resolve and assign every field.  `daemons` and `IP` are the
two external registries. -/
def load (daemons IP : List (String × Nat)) (doc : JValue) :
    Except LoadError Config := do
  match validate_config (daemons.map Prod.fst) (IP.map Prod.fst) doc with
  | .error e => .error (.invalid e)
  | .ok () =>
    let fs ← asFields doc
    let daemon ← getattr daemons (← asString (← getItem fs "daemon"))
    let log_name ← asString (← getItem fs "log_name")
    let control_ips ← resolveMachines IP (← asList (← getItem fs "control_machines"))
    let pwi_host ← asString (← getItem fs "pwi_host")
    let pwi_port ← asInt (← getItem fs "pwi_port")
    let pwi_timeout ← asNumber (← getItem fs "pwi_timeout")
    let slew_timeout ← asNumber (← getItem fs "slew_timeout")
    let slew_poll_interval ← asNumber (← getItem fs "slew_poll_interval")
    let home_timeout ← asNumber (← getItem fs "home_timeout")
    let home_poll_interval ← asNumber (← getItem fs "home_poll_interval")
    let ha_soft_limits ← getItem fs "ha_soft_limits"
    let dec_soft_limits ← getItem fs "dec_soft_limits"
    let park_positions ← getItem fs "park_positions"
    .ok { daemon, log_name, control_ips, pwi_host, pwi_port, pwi_timeout,
          slew_timeout, slew_poll_interval, home_timeout, home_poll_interval,
          ha_soft_limits, dec_soft_limits, park_positions }

/-- A park-position entry with in-range `alt`/`az` (spec section 3 table). -/
def parkEntryInRange : JValue → Bool
  | .jobj pf =>
      (match List.lookup "alt" pf with
       | some (.jnum a) => decide (0 ≤ a) && decide (a ≤ 90)
       | _ => false)
      && (match List.lookup "az" pf with
       | some (.jnum a) => decide (0 ≤ a) && decide (a ≤ 360)
       | _ => false)
  | _ => false

/-- A two-element number array with both elements in `[lo, hi]`. -/
def pairInRange (lo hi : Rat) : JValue → Bool
  | .jarr [.jnum a, .jnum b] =>
      decide (lo ≤ a) && decide (a ≤ hi) && decide (lo ≤ b) && decide (b ≤ hi)
  | _ => false

/-- The in-range conditions that the spec's section 3 table states for
`ha_soft_limits`, `dec_soft_limits` and the park-position entries. -/
def rangesOK : JValue → Bool
  | .jobj fs =>
      (match List.lookup "ha_soft_limits" fs with
       | some v => pairInRange (-180) 180 v
       | none => false)
      && (match List.lookup "dec_soft_limits" fs with
       | some v => pairInRange (-90) 90 v
       | none => false)
      && (match List.lookup "park_positions" fs with
       | some (.jobj ps) => ps.all (fun kv => parkEntryInRange kv.2)
       | _ => false)
  | _ => false

/-- Claim C1's conformance predicate: all thirteen required keys present
with correctly typed values, names resolvable, and every range-constrained
value in range. -/
def conforms (dnames mnames : List String) (doc : JValue) : Bool :=
  checkSchema true dnames mnames CONFIG_SCHEMA doc && rangesOK doc

/-- Resolve a list of names against a registry, in order; `none` when any
name is absent. -/
def resolveNames (registry : List (String × Nat)) :
    List String → Option (List Nat)
  | [] => some []
  | n :: rest =>
      match List.lookup n registry, resolveNames registry rest with
      | some h, some hs => some (h :: hs)
      | _, _ => none

/-- A one-entry daemon registry for concrete tests. -/
def daemons0 : List (String × Nat) := [("mount_daemon", 1)]

/-- A one-entry machine registry for concrete tests. -/
def machines0 : List (String × Nat) := [("host_a", 2)]

/-- The spec's example minimal valid document (spec section 6). -/
def goodFields : List (String × JValue) :=
  [("daemon", .jstr "mount_daemon"),
   ("log_name", .jstr "mount_log"),
   ("control_machines", .jarr [.jstr "host_a"]),
   ("pwi_host", .jstr "10.0.0.5"),
   ("pwi_port", .jnum 8220),
   ("pwi_timeout", .jnum 5),
   ("slew_timeout", .jnum 60),
   ("slew_poll_interval", .jnum 1),
   ("home_timeout", .jnum 120),
   ("home_poll_interval", .jnum 1),
   ("ha_soft_limits", .jarr [.jnum (-170), .jnum 170]),
   ("dec_soft_limits", .jarr [.jnum (-85), .jnum 85]),
   ("park_positions", .jobj
     [("default", .jobj [("desc", .jstr "Home park"), ("alt", .jnum 45),
       ("az", .jnum 180)])])]

/-- `goodFields` with `ha_soft_limits` of [-500, 500] and a park-position
`alt` of 120: out of the ranges of claim C2, otherwise valid. -/
def badLimitsFields : List (String × JValue) :=
  [("daemon", .jstr "mount_daemon"),
   ("log_name", .jstr "mount_log"),
   ("control_machines", .jarr [.jstr "host_a"]),
   ("pwi_host", .jstr "10.0.0.5"),
   ("pwi_port", .jnum 8220),
   ("pwi_timeout", .jnum 5),
   ("slew_timeout", .jnum 60),
   ("slew_poll_interval", .jnum 1),
   ("home_timeout", .jnum 120),
   ("home_poll_interval", .jnum 1),
   ("ha_soft_limits", .jarr [.jnum (-500), .jnum 500]),
   ("dec_soft_limits", .jarr [.jnum (-85), .jnum 85]),
   ("park_positions", .jobj
     [("default", .jobj [("desc", .jstr "Home park"), ("alt", .jnum 120),
       ("az", .jnum 180)])])]

/-- `goodFields` with an empty `pwi_host`, otherwise valid. -/
def emptyHostFields : List (String × JValue) :=
  [("daemon", .jstr "mount_daemon"),
   ("log_name", .jstr "mount_log"),
   ("control_machines", .jarr [.jstr "host_a"]),
   ("pwi_host", .jstr ""),
   ("pwi_port", .jnum 8220),
   ("pwi_timeout", .jnum 5),
   ("slew_timeout", .jnum 60),
   ("slew_poll_interval", .jnum 1),
   ("home_timeout", .jnum 120),
   ("home_poll_interval", .jnum 1),
   ("ha_soft_limits", .jarr [.jnum (-170), .jnum 170]),
   ("dec_soft_limits", .jarr [.jnum (-85), .jnum 85]),
   ("park_positions", .jobj
     [("default", .jobj [("desc", .jstr "Home park"), ("alt", .jnum 45),
       ("az", .jnum 180)])])]

/-- `goodFields` with a daemon name absent from the registry. -/
def unknownDaemonFields : List (String × JValue) :=
  [("daemon", .jstr "missing_daemon"),
   ("log_name", .jstr "mount_log"),
   ("control_machines", .jarr [.jstr "host_a"]),
   ("pwi_host", .jstr "10.0.0.5"),
   ("pwi_port", .jnum 8220),
   ("pwi_timeout", .jnum 5),
   ("slew_timeout", .jnum 60),
   ("slew_poll_interval", .jnum 1),
   ("home_timeout", .jnum 120),
   ("home_poll_interval", .jnum 1),
   ("ha_soft_limits", .jarr [.jnum (-170), .jnum 170]),
   ("dec_soft_limits", .jarr [.jnum (-85), .jnum 85]),
   ("park_positions", .jobj
     [("default", .jobj [("desc", .jstr "Home park"), ("alt", .jnum 45),
       ("az", .jnum 180)])])]

theorem lookup_cons_eq {α β : Type} [BEq α] [LawfulBEq α] [DecidableEq α]
    (a k : α) (v : β) (l : List (α × β)) :
    List.lookup a ((k, v) :: l)
      = if a = k then some v else List.lookup a l := by
  simp only [List.lookup]
  split <;> simp_all

theorem lookup_nil_eq {α β : Type} [BEq α] (a : α) :
    List.lookup a ([] : List (α × β)) = none := rfl

theorem rockit_formats_to_labels (s : Int)
    (h : (List.lookup s Rockit.MountState.formats).isSome) :
    (List.lookup s Rockit.MountState.labels).isSome := by
  simp only [Rockit.MountState.formats, Rockit.MountState.labels,
    lookup_cons_eq, lookup_nil_eq] at *
  split_ifs at * <;> simp_all

theorem rockit_labels_to_formats (s : Int)
    (h : (List.lookup s Rockit.MountState.labels).isSome) :
    (List.lookup s Rockit.MountState.formats).isSome := by
  simp only [Rockit.MountState.formats, Rockit.MountState.labels,
    lookup_cons_eq, lookup_nil_eq] at *
  split_ifs at * <;> simp_all

theorem warwick_formats_to_labels (s : Int)
    (h : (List.lookup s Warwick.MountState.formats).isSome) :
    (List.lookup s Warwick.MountState.labels).isSome := by
  simp only [Warwick.MountState.formats, Warwick.MountState.labels,
    lookup_cons_eq, lookup_nil_eq] at *
  split_ifs at * <;> simp_all

theorem rockit_message_isSome (c : Int) : (Rockit.CommandStatus.message c).isSome := by
  unfold Rockit.CommandStatus.message
  split <;> simp_all

theorem warwick_message_isSome (c : Int) : (Warwick.CommandStatus.message c).isSome := by
  unfold Warwick.CommandStatus.message
  split <;> simp_all

theorem rockit_label_isSome (s : Int) (fmt : Bool) :
    (Rockit.MountState.label s fmt).isSome := by
  unfold Rockit.MountState.label
  split
  · split
    · rename_i hg
      have hf : (List.lookup s Rockit.MountState.formats).isSome := by
        simpa using hg
      have hl := rockit_formats_to_labels s hf
      obtain ⟨f, hf'⟩ := Option.isSome_iff_exists.mp hf
      obtain ⟨l, hl'⟩ := Option.isSome_iff_exists.mp hl
      rw [hf', hl']
      simp
    · simp
  · split <;> simp_all

theorem warwick_label_isSome (s : Int) (fmt : Bool) :
    (Warwick.MountState.label s fmt).isSome := by
  unfold Warwick.MountState.label
  split
  · split
    · rename_i hg
      have hf : (List.lookup s Warwick.MountState.formats).isSome := by
        simpa using hg
      have hl := warwick_formats_to_labels s hf
      obtain ⟨f, hf'⟩ := Option.isSome_iff_exists.mp hf
      obtain ⟨l, hl'⟩ := Option.isSome_iff_exists.mp hl
      rw [hf', hl']
      simp
    · simp
  · split <;> simp_all

theorem lookup_messages_agree (c : Int) (h12 : c ≠ 12) (h15 : c ≠ 15) :
    List.lookup c Rockit.CommandStatus.messages
      = List.lookup c Warwick.CommandStatus.messages := by
  by_cases h1 : c = 1
  · subst h1; rfl
  by_cases h2 : c = 2
  · subst h2; rfl
  by_cases h5 : c = 5
  · subst h5; rfl
  by_cases h9 : c = 9
  · subst h9; rfl
  by_cases h10 : c = 10
  · subst h10; rfl
  by_cases h11 : c = 11
  · subst h11; rfl
  by_cases h14 : c = 14
  · subst h14; rfl
  by_cases h20 : c = 20
  · subst h20; rfl
  by_cases h21 : c = 21
  · subst h21; rfl
  by_cases hn100 : c = -100
  · subst hn100; rfl
  by_cases hn101 : c = -101
  · subst hn101; rfl
  by_cases hn102 : c = -102
  · subst hn102; rfl
  simp only [Rockit.CommandStatus.messages, Warwick.CommandStatus.messages,
    lookup_cons_eq, lookup_nil_eq, if_neg h1, if_neg h2, if_neg h5, if_neg h9, if_neg h10, if_neg h11, if_neg h14, if_neg h20, if_neg h21, if_neg hn100, if_neg hn101, if_neg hn102, if_neg h12, if_neg h15]

/-- C3: `CommandStatus.message` returns the fixed table string when the code is
a key of `_messages` and otherwise the generated fallback string; in
particular `message 1 = 'error: command failed'`,
`message 9999 = 'error: Unknown error code 9999'`, and, since 0 (Succeeded)
has no table entry, `message 0 = 'error: Unknown error code 0'`. -/
theorem c3_command_status_message_contract :
    (∀ c m, List.lookup c Rockit.CommandStatus.messages = some m →
      Rockit.CommandStatus.message c = some m)
    ∧ (∀ c, List.lookup c Rockit.CommandStatus.messages = none →
      Rockit.CommandStatus.message c
        = some ("error: Unknown error code " ++ toString c))
    ∧ Rockit.CommandStatus.message 1 = some "error: command failed"
    ∧ Rockit.CommandStatus.message 9999 = some "error: Unknown error code 9999"
    ∧ Rockit.CommandStatus.message 0 = some "error: Unknown error code 0" := by
  refine ⟨?_, ?_, by decide, by decide, by decide⟩
  · intro c m h
    unfold Rockit.CommandStatus.message
    simp [h]
  · intro c h
    unfold Rockit.CommandStatus.message
    simp [h]

/-- Witness for C3 at the concrete code 2. -/
theorem c3_witness :
    Rockit.CommandStatus.message 2
      = some "error: another command is already running" :=
  c3_command_status_message_contract.1 2
    "error: another command is already running" (by decide)

/-- C6: `CommandStatus.message` and `MountState.label` are total and never
fail, in both historical variants; unrecognized states degrade to the
labelled UNKNOWN output (this relies on every key of `_formats` also being a
key of `_labels`, since the formatted branch only tests membership in
`_formats` before indexing `_labels`). -/
theorem c6_presentation_helpers_never_fail (c s : Int) (fmt : Bool) :
    (Rockit.CommandStatus.message c).isSome = true
    ∧ (Rockit.MountState.label s fmt).isSome = true
    ∧ (Warwick.CommandStatus.message c).isSome = true
    ∧ (Warwick.MountState.label s fmt).isSome = true
    ∧ (List.lookup s Rockit.MountState.labels = none →
        Rockit.MountState.label s false = some "UNKNOWN"
        ∧ Rockit.MountState.label s true
            = some (TFmt.Red ++ TFmt.Bold ++ "UNKNOWN" ++ TFmt.Clear)) := by
  refine ⟨rockit_message_isSome c, rockit_label_isSome s fmt,
    warwick_message_isSome c, warwick_label_isSome s fmt, ?_⟩
  intro hnone
  have hf : List.lookup s Rockit.MountState.formats = none := by
    cases hf' : List.lookup s Rockit.MountState.formats with
    | none => rfl
    | some f =>
      have := rockit_formats_to_labels s (by simp [hf'])
      simp [hnone] at this
  constructor
  · unfold Rockit.MountState.label
    simp [hnone]
  · unfold Rockit.MountState.label
    simp [hf]

/-- Witness for C6 at code 0, unrecognized state 99. -/
theorem c6_witness :
    Rockit.MountState.label 99 false = some "UNKNOWN"
    ∧ (Rockit.CommandStatus.message 0).isSome = true :=
  ⟨((c6_presentation_helpers_never_fail 0 99 true).2.2.2.2 (by decide)).1,
   (c6_presentation_helpers_never_fail 0 99 true).1⟩

/-- C7: in the five-state rockit variant, `label 4 false = 'TRACKING'`, and
every state that is not a key of the label table (such as 99) yields the
fixed string 'UNKNOWN'. -/
theorem c7_label_tracking_unknown_fallback :
    Rockit.MountState.label 4 false = some "TRACKING"
    ∧ (∀ s : Int, List.lookup s Rockit.MountState.labels = none →
        Rockit.MountState.label s false = some "UNKNOWN")
    ∧ Rockit.MountState.label 99 false = some "UNKNOWN" := by
  refine ⟨by decide, ?_, by decide⟩
  intro s h
  unfold Rockit.MountState.label
  simp [h]

/-- Witness for C7 at the unrecognized state 77. -/
theorem c7_witness : Rockit.MountState.label 77 false = some "UNKNOWN" :=
  c7_label_tracking_unknown_fallback.2.1 77 (by decide)

/-- C8: for every recognized state (key of the label table), the formatted
label contains the plain label as a substring. -/
theorem c8_formatted_label_contains_plain (s : Int) (l : String)
    (h : List.lookup s Rockit.MountState.labels = some l) :
    Rockit.MountState.label s false = some l
    ∧ ∃ p q, Rockit.MountState.label s true = some (p ++ l ++ q) := by
  have hf : (List.lookup s Rockit.MountState.formats).isSome :=
    rockit_labels_to_formats s (by simp [h])
  obtain ⟨f, hf'⟩ := Option.isSome_iff_exists.mp hf
  constructor
  · unfold Rockit.MountState.label
    simp [h]
  · refine ⟨f, TFmt.Clear, ?_⟩
    unfold Rockit.MountState.label
    simp [hf', h]

/-- Witness for C8 at the recognized state 4 (TRACKING). -/
theorem c8_witness :
    Rockit.MountState.label 4 false = some "TRACKING"
    ∧ ∃ p q, Rockit.MountState.label 4 true = some (p ++ "TRACKING" ++ q) :=
  c8_formatted_label_contains_plain 4 "TRACKING" (by decide)

/-- C10: outside the divergent codes 12 (warwick-only) and 15 (rockit-only),
the two historical `CommandStatus.message` implementations return identical
strings, including an identical generated fallback. -/
theorem c10_message_variants_agree (c : Int) (h12 : c ≠ 12) (h15 : c ≠ 15) :
    Rockit.CommandStatus.message c = Warwick.CommandStatus.message c := by
  have h := lookup_messages_agree c h12 h15
  unfold Rockit.CommandStatus.message Warwick.CommandStatus.message
  rw [h]

/-- Witness for C10 at the concrete code 3 (absent from both tables). -/
theorem c10_witness :
    Rockit.CommandStatus.message 3 = Warwick.CommandStatus.message 3 :=
  c10_message_variants_agree 3 (by decide) (by decide)

section AssocHelpers

variable {α β : Type} [BEq α] [LawfulBEq α]

theorem lookup_mem {k : α} {v : β} :
    ∀ {l : List (α × β)}, List.lookup k l = some v → (k, v) ∈ l := by
  intro l
  induction l with
  | nil => intro h; simp [List.lookup] at h
  | cons kv rest ih =>
    intro h
    obtain ⟨k', v'⟩ := kv
    rw [List.lookup] at h
    by_cases hk : k == k'
    · simp [hk] at h
      simp_all
    · simp [hk] at h ⊢
      exact Or.inr (ih h)

theorem lookup_isSome_iff_mem_keys {a : α} :
    ∀ {l : List (α × β)}, (List.lookup a l).isSome ↔ a ∈ l.map Prod.fst := by
  intro l
  induction l with
  | nil => simp [List.lookup]
  | cons kv rest ih =>
    obtain ⟨k, v⟩ := kv
    by_cases hk : a = k
    · subst hk
      simp [List.lookup]
    · have hb : (a == k) = false := by simp [hk]
      simp [List.lookup, hb, hk, ih]

theorem contains_keys_iff {a : α} {l : List (α × β)} :
    (l.map Prod.fst).contains a = true ↔ (List.lookup a l).isSome = true := by
  rw [lookup_isSome_iff_mem_keys]
  constructor
  · intro h
    simpa [List.contains, List.elem_iff] using h
  · intro h
    simpa [List.contains, List.elem_iff] using h

end AssocHelpers

theorem checkFields_all {cn : Bool} {dn mn : List String}
    {props : List (String × Schema)} :
    ∀ {fs : List (String × JValue)}, checkFields cn dn mn props fs = true →
      ∀ kv ∈ fs, ∃ s, List.lookup kv.1 props = some s
        ∧ checkSchema cn dn mn s kv.2 = true := by
  intro fs
  induction fs with
  | nil => intro _ kv h; simp at h
  | cons kv rest ih =>
    obtain ⟨k, v⟩ := kv
    intro h kv' hm
    rw [checkFields, Bool.and_eq_true] at h
    rcases List.mem_cons.mp hm with h' | h'
    · subst h'
      cases hlk : List.lookup k props with
      | none => simp [hlk] at h
      | some s =>
        refine ⟨s, by simp [hlk], ?_⟩
        simp only [hlk] at h
        exact h.1
    · exact ih h.2 kv' h'

theorem checkFields_lookup {cn : Bool} {dn mn : List String}
    {props : List (String × Schema)} {fs : List (String × JValue)}
    {k : String} {v : JValue} {s : Schema}
    (hf : checkFields cn dn mn props fs = true)
    (hv : List.lookup k fs = some v)
    (hs : List.lookup k props = some s) :
    checkSchema cn dn mn s v = true := by
  obtain ⟨s', hs', hc⟩ := checkFields_all hf (k, v) (lookup_mem hv)
  rw [hs] at hs'
  injection hs' with e
  rw [← e] at hc
  exact hc

theorem checkItems_all {cn : Bool} {dn mn : List String} {s : Schema} :
    ∀ {xs : List JValue}, checkItems cn dn mn s xs = true →
      ∀ v ∈ xs, checkSchema cn dn mn s v = true := by
  intro xs
  induction xs with
  | nil => intro _ v h; simp at h
  | cons x rest ih =>
    intro h v hm
    rw [checkItems, Bool.and_eq_true] at h
    rcases List.mem_cons.mp hm with h' | h'
    · subst h'; exact h.1
    · exact ih h.2 v h'

theorem string_shape {cn : Bool} {dn mn : List String} {dT mT : Bool}
    {v : JValue} (h : checkSchema cn dn mn (.sString dT mT) v = true) :
    ∃ s, v = .jstr s := by
  cases v <;> first | exact ⟨_, rfl⟩ | simp [checkSchema] at h

theorem daemon_name_checked {dn mn : List String} {s : String}
    (h : checkSchema true dn mn (.sString true false) (.jstr s) = true) :
    dn.contains s = true := by
  simpa [checkSchema] using h

theorem machine_name_checked {dn mn : List String} {s : String}
    (h : checkSchema true dn mn (.sString false true) (.jstr s) = true) :
    mn.contains s = true := by
  simpa [checkSchema] using h

theorem integer_shape {cn : Bool} {dn mn : List String} {v : JValue}
    (h : checkSchema cn dn mn .sInteger v = true) :
    ∃ q, v = .jnum q ∧ q.den = 1 := by
  rcases v with _ | b | q | t | xs | fs2 <;> simp [checkSchema] at h
  exact ⟨q, rfl, h⟩

theorem number_shape {cn : Bool} {dn mn : List String}
    {m mnK mxK : Option Rat} {v : JValue}
    (h : checkSchema cn dn mn (.sNumber m mnK mxK) v = true) :
    ∃ q, v = .jnum q := by
  rcases v with _ | b | q | t | xs | fs2 <;>
    first | exact ⟨q, rfl⟩ | simp [checkSchema] at h

theorem array_shape {cn : Bool} {dn mn : List String} {s : Schema}
    {mnI mxI : Option Nat} {v : JValue}
    (h : checkSchema cn dn mn (.sArray s mnI mxI) v = true) :
    ∃ xs, v = .jarr xs ∧ checkItems cn dn mn s xs = true := by
  rcases v with _ | b | q | t | xs | fs2 <;> simp [checkSchema] at h
  exact ⟨xs, rfl, h.2⟩

theorem resolveMachines_ok {IP : List (String × Nat)} {dn : List String} :
    ∀ {xs : List JValue},
      checkItems true dn (IP.map Prod.fst) (.sString false true) xs = true →
      ∃ names ips, xs = List.map JValue.jstr names
        ∧ resolveMachines IP xs = .ok ips
        ∧ resolveNames IP names = some ips := by
  intro xs
  induction xs with
  | nil => intro _; exact ⟨[], [], rfl, rfl, rfl⟩
  | cons x rest ih =>
    intro h
    rw [checkItems, Bool.and_eq_true] at h
    obtain ⟨s, rfl⟩ := string_shape h.1
    have hm := machine_name_checked h.1
    have his : (List.lookup s IP).isSome = true := contains_keys_iff.mp hm
    obtain ⟨ip, hip⟩ := Option.isSome_iff_exists.mp his
    obtain ⟨names, ips, rfl, hres, hmap⟩ := ih h.2
    refine ⟨s :: names, ip :: ips, rfl, ?_, ?_⟩
    · rw [resolveMachines]
      simp [asString, getattr, hip, hres, bind, Except.bind]
    · rw [resolveNames, hip, hmap]

theorem config_shape {cn : Bool} {dn mn : List String}
    {fs : List (String × JValue)}
    (h : checkSchema cn dn mn CONFIG_SCHEMA (.jobj fs) = true) :
    ∃ (dname lname host : String) (ms : List JValue)
      (port pt st sp ht hp : Rat) (ha dec park : JValue),
      List.lookup "daemon" fs = some (.jstr dname)
      ∧ List.lookup "log_name" fs = some (.jstr lname)
      ∧ List.lookup "control_machines" fs = some (.jarr ms)
      ∧ checkItems cn dn mn (.sString false true) ms = true
      ∧ List.lookup "pwi_host" fs = some (.jstr host)
      ∧ List.lookup "pwi_port" fs = some (.jnum port) ∧ port.den = 1
      ∧ List.lookup "pwi_timeout" fs = some (.jnum pt)
      ∧ List.lookup "slew_timeout" fs = some (.jnum st)
      ∧ List.lookup "slew_poll_interval" fs = some (.jnum sp)
      ∧ List.lookup "home_timeout" fs = some (.jnum ht)
      ∧ List.lookup "home_poll_interval" fs = some (.jnum hp)
      ∧ List.lookup "ha_soft_limits" fs = some ha
      ∧ List.lookup "dec_soft_limits" fs = some dec
      ∧ List.lookup "park_positions" fs = some park
      ∧ (cn = true → dn.contains dname = true) := by
  rw [CONFIG_SCHEMA, checkSchema, Bool.and_eq_true] at h
  obtain ⟨hreq, hF⟩ := h
  simp only [requiredKeys, List.all_cons, List.all_nil, Bool.and_eq_true,
    and_true] at hreq
  obtain ⟨h1, h2, h3, h4, h5, h6, h7, h8, h9, h10, h11, h12, h13⟩ := hreq
  obtain ⟨v1, hv1⟩ := Option.isSome_iff_exists.mp h1
  obtain ⟨dname, rfl⟩ := string_shape (checkFields_lookup hF hv1 rfl)
  obtain ⟨v2, hv2⟩ := Option.isSome_iff_exists.mp h2
  obtain ⟨lname, rfl⟩ := string_shape (checkFields_lookup hF hv2 rfl)
  obtain ⟨v3, hv3⟩ := Option.isSome_iff_exists.mp h3
  obtain ⟨ms, rfl, hitems⟩ := array_shape (checkFields_lookup hF hv3 rfl)
  obtain ⟨v4, hv4⟩ := Option.isSome_iff_exists.mp h4
  obtain ⟨host, rfl⟩ := string_shape (checkFields_lookup hF hv4 rfl)
  obtain ⟨v5, hv5⟩ := Option.isSome_iff_exists.mp h5
  obtain ⟨port, rfl, hden⟩ := integer_shape (checkFields_lookup hF hv5 rfl)
  obtain ⟨v6, hv6⟩ := Option.isSome_iff_exists.mp h6
  obtain ⟨pt, rfl⟩ := number_shape (checkFields_lookup hF hv6 rfl)
  obtain ⟨v7, hv7⟩ := Option.isSome_iff_exists.mp h7
  obtain ⟨st, rfl⟩ := number_shape (checkFields_lookup hF hv7 rfl)
  obtain ⟨v8, hv8⟩ := Option.isSome_iff_exists.mp h8
  obtain ⟨sp, rfl⟩ := number_shape (checkFields_lookup hF hv8 rfl)
  obtain ⟨v9, hv9⟩ := Option.isSome_iff_exists.mp h9
  obtain ⟨ht, rfl⟩ := number_shape (checkFields_lookup hF hv9 rfl)
  obtain ⟨v10, hv10⟩ := Option.isSome_iff_exists.mp h10
  obtain ⟨hp, rfl⟩ := number_shape (checkFields_lookup hF hv10 rfl)
  obtain ⟨ha, hv11⟩ := Option.isSome_iff_exists.mp h11
  obtain ⟨dec, hv12⟩ := Option.isSome_iff_exists.mp h12
  obtain ⟨park, hv13⟩ := Option.isSome_iff_exists.mp h13
  refine ⟨dname, lname, host, ms, port, pt, st, sp, ht, hp, ha, dec, park,
    hv1, hv2, hv3, hitems, hv4, hv5, hden, hv6, hv7, hv8, hv9, hv10,
    hv11, hv12, hv13, ?_⟩
  intro hcn
  subst hcn
  exact daemon_name_checked (checkFields_lookup hF hv1 rfl)

theorem load_ok_of_valid {daemons IP : List (String × Nat)}
    {fs : List (String × JValue)}
    (h : checkSchema true (daemons.map Prod.fst) (IP.map Prod.fst)
      CONFIG_SCHEMA (.jobj fs) = true) :
    ∃ (cfg : Config) (dname : String) (names : List String),
      load daemons IP (.jobj fs) = .ok cfg
      ∧ List.lookup "daemon" fs = some (.jstr dname)
      ∧ List.lookup dname daemons = some cfg.daemon
      ∧ List.lookup "log_name" fs = some (.jstr cfg.log_name)
      ∧ List.lookup "control_machines" fs
          = some (.jarr (names.map JValue.jstr))
      ∧ resolveNames IP names = some cfg.control_ips
      ∧ List.lookup "pwi_host" fs = some (.jstr cfg.pwi_host)
      ∧ List.lookup "pwi_port" fs = some (.jnum (cfg.pwi_port : Rat))
      ∧ List.lookup "pwi_timeout" fs = some (.jnum cfg.pwi_timeout)
      ∧ List.lookup "slew_timeout" fs = some (.jnum cfg.slew_timeout)
      ∧ List.lookup "slew_poll_interval" fs
          = some (.jnum cfg.slew_poll_interval)
      ∧ List.lookup "home_timeout" fs = some (.jnum cfg.home_timeout)
      ∧ List.lookup "home_poll_interval" fs
          = some (.jnum cfg.home_poll_interval)
      ∧ List.lookup "ha_soft_limits" fs = some cfg.ha_soft_limits
      ∧ List.lookup "dec_soft_limits" fs = some cfg.dec_soft_limits
      ∧ List.lookup "park_positions" fs = some cfg.park_positions := by
  obtain ⟨dname, lname, host, ms, port, pt, st, sp, ht, hp, ha, dec, park,
    hv1, hv2, hv3, hitems, hv4, hv5, hden, hv6, hv7, hv8, hv9, hv10,
    hv11, hv12, hv13, hname⟩ := config_shape h
  have hdc : (daemons.map Prod.fst).contains dname = true := hname rfl
  obtain ⟨dh, hdh⟩ := Option.isSome_iff_exists.mp (contains_keys_iff.mp hdc)
  obtain ⟨names, ips, rfl, hres, hns⟩ := resolveMachines_ok hitems
  have hval : validate_config (daemons.map Prod.fst) (IP.map Prod.fst)
      (.jobj fs) = .ok () := by
    rw [validate_config, if_pos h]
  refine ⟨⟨dh, lname, ips, host, port.num, pt, st, sp, ht, hp, ha, dec, park⟩,
    dname, names, ?_, hv1, hdh, hv2, hv3, hns, hv4, ?_, hv6, hv7, hv8,
    hv9, hv10, hv11, hv12, hv13⟩
  · rw [load, hval]
    simp only [bind, Except.bind, getItem, asFields, asString, asInt,
      asNumber, asList, getattr, hv1, hv2, hv3, hv4, hv5, hv6, hv7, hv8,
      hv9, hv10, hv11, hv12, hv13, hdh, hres, hden, if_pos]
  · rw [Rat.coe_int_num_of_den_eq_one hden]
    exact hv5

theorem checkSchema_false_of_violation {cn : Bool} {dn mn : List String}
    {fs : List (String × JValue)}
    (hbad : (∃ k, k ∈ requiredKeys ∧ List.lookup k fs = none)
      ∨ (∃ kv, kv ∈ fs ∧ List.lookup kv.1 topProperties = none)) :
    checkSchema cn dn mn CONFIG_SCHEMA (.jobj fs) = false := by
  cases hcs : checkSchema cn dn mn CONFIG_SCHEMA (.jobj fs) with
  | false => rfl
  | true =>
    exfalso
    rw [CONFIG_SCHEMA, checkSchema, Bool.and_eq_true] at hcs
    obtain ⟨hreq, hF⟩ := hcs
    rcases hbad with ⟨k, hk, hnone⟩ | ⟨kv, hm, hnone⟩
    · have := List.all_eq_true.mp hreq k hk
      rw [hnone] at this
      simp at this
    · obtain ⟨s, hs, _⟩ := checkFields_all hF kv hm
      rw [hnone] at hs
      exact Option.noConfusion hs

theorem checkSchema_names_false_of_unknown {daemons IP : List (String × Nat)}
    {fs : List (String × JValue)}
    (hbad : (∃ d, List.lookup "daemon" fs = some (.jstr d)
        ∧ List.lookup d daemons = none)
      ∨ (∃ ms m, List.lookup "control_machines" fs = some (.jarr ms)
        ∧ JValue.jstr m ∈ ms ∧ List.lookup m IP = none)) :
    checkSchema true (daemons.map Prod.fst) (IP.map Prod.fst)
      CONFIG_SCHEMA (.jobj fs) = false := by
  cases hcs : checkSchema true (daemons.map Prod.fst) (IP.map Prod.fst)
      CONFIG_SCHEMA (.jobj fs) with
  | false => rfl
  | true =>
    exfalso
    obtain ⟨dname, lname, host, ms', port, pt, st, sp, ht, hp, ha, dec, park,
      hv1, hv2, hv3, hitems, hv4, hv5, hden, hv6, hv7, hv8, hv9, hv10,
      hv11, hv12, hv13, hname⟩ := config_shape hcs
    rcases hbad with ⟨d, hd, hnone⟩ | ⟨ms, m, hms, hmem, hnone⟩
    · rw [hd] at hv1
      injection hv1 with h1
      injection h1 with h2
      subst h2
      have := contains_keys_iff.mp (hname rfl)
      rw [hnone] at this
      simp at this
    · rw [hms] at hv3
      injection hv3 with h1
      injection h1 with h2
      subst h2
      have hchk := checkItems_all hitems (.jstr m) hmem
      have := contains_keys_iff.mp (machine_name_checked hchk)
      rw [hnone] at this
      simp at this

/-- C1: for every document conforming to the schema (thirteen keys,
correct types, in-range values, resolvable names), `load` succeeds and every
field of the resulting `Config` equals the corresponding JSON value, with
`daemon` and `control_ips` holding the handles resolved from the registry,
in order. -/
theorem c1_load_conforming_document (daemons IP : List (String × Nat))
    (fs : List (String × JValue))
    (h : conforms (daemons.map Prod.fst) (IP.map Prod.fst) (.jobj fs)
      = true) :
    ∃ (cfg : Config) (dname : String) (names : List String),
      load daemons IP (.jobj fs) = .ok cfg
      ∧ List.lookup "daemon" fs = some (.jstr dname)
      ∧ List.lookup dname daemons = some cfg.daemon
      ∧ List.lookup "log_name" fs = some (.jstr cfg.log_name)
      ∧ List.lookup "control_machines" fs
          = some (.jarr (names.map JValue.jstr))
      ∧ resolveNames IP names = some cfg.control_ips
      ∧ List.lookup "pwi_host" fs = some (.jstr cfg.pwi_host)
      ∧ List.lookup "pwi_port" fs = some (.jnum (cfg.pwi_port : Rat))
      ∧ List.lookup "pwi_timeout" fs = some (.jnum cfg.pwi_timeout)
      ∧ List.lookup "slew_timeout" fs = some (.jnum cfg.slew_timeout)
      ∧ List.lookup "slew_poll_interval" fs
          = some (.jnum cfg.slew_poll_interval)
      ∧ List.lookup "home_timeout" fs = some (.jnum cfg.home_timeout)
      ∧ List.lookup "home_poll_interval" fs
          = some (.jnum cfg.home_poll_interval)
      ∧ List.lookup "ha_soft_limits" fs = some cfg.ha_soft_limits
      ∧ List.lookup "dec_soft_limits" fs = some cfg.dec_soft_limits
      ∧ List.lookup "park_positions" fs = some cfg.park_positions := by
  rw [conforms, Bool.and_eq_true] at h
  exact load_ok_of_valid h.1

/-- Witness for C1 at the spec's example document. -/
theorem c1_witness :
    ∃ (cfg : Config) (dname : String) (names : List String),
      load daemons0 machines0 (.jobj goodFields) = .ok cfg
      ∧ List.lookup "daemon" goodFields = some (.jstr dname)
      ∧ List.lookup dname daemons0 = some cfg.daemon
      ∧ List.lookup "log_name" goodFields = some (.jstr cfg.log_name)
      ∧ List.lookup "control_machines" goodFields
          = some (.jarr (names.map JValue.jstr))
      ∧ resolveNames machines0 names = some cfg.control_ips
      ∧ List.lookup "pwi_host" goodFields = some (.jstr cfg.pwi_host)
      ∧ List.lookup "pwi_port" goodFields = some (.jnum (cfg.pwi_port : Rat))
      ∧ List.lookup "pwi_timeout" goodFields = some (.jnum cfg.pwi_timeout)
      ∧ List.lookup "slew_timeout" goodFields
          = some (.jnum cfg.slew_timeout)
      ∧ List.lookup "slew_poll_interval" goodFields
          = some (.jnum cfg.slew_poll_interval)
      ∧ List.lookup "home_timeout" goodFields
          = some (.jnum cfg.home_timeout)
      ∧ List.lookup "home_poll_interval" goodFields
          = some (.jnum cfg.home_poll_interval)
      ∧ List.lookup "ha_soft_limits" goodFields
          = some cfg.ha_soft_limits
      ∧ List.lookup "dec_soft_limits" goodFields
          = some cfg.dec_soft_limits
      ∧ List.lookup "park_positions" goodFields
          = some cfg.park_positions :=
  c1_load_conforming_document daemons0 machines0 goodFields (by decide)

/-- C2: the claim states that out-of-range `ha_soft_limits`,
`dec_soft_limits` or park-position `alt`/`az` values are rejected with a
SchemaViolation.  The schema spells these bounds with the keys `min` and
`max`, which are not JSON-Schema keywords (the same file spells the
enforced bound of the timeout fields `minimum`), so a generic JSON-Schema
validator ignores them: the out-of-range document below — `ha_soft_limits`
of [-500, 500] and a park `alt` of 120, otherwise valid — is accepted by
`load`. -/
theorem c2_out_of_range_limits_accepted :
    pairInRange (-180) 180 (.jarr [.jnum (-500), .jnum 500]) = false
    ∧ rangesOK (.jobj badLimitsFields) = false
    ∧ (load daemons0 machines0 (.jobj badLimitsFields)).toOption.isSome
        = true :=
  ⟨by decide, by decide, by decide⟩

/-- C4: a structurally valid document whose daemon name, or one of whose
control-machine names, is not in its registry makes `load` fail with the
first-class `unknownReferenceName` error — not succeed, and not fail with
the generic attribute-lookup fault. -/
theorem c4_unknown_reference_name (daemons IP : List (String × Nat))
    (fs : List (String × JValue))
    (hstruct : checkSchema false (daemons.map Prod.fst) (IP.map Prod.fst)
      CONFIG_SCHEMA (.jobj fs) = true)
    (hbad : (∃ d, List.lookup "daemon" fs = some (.jstr d)
        ∧ List.lookup d daemons = none)
      ∨ (∃ ms m, List.lookup "control_machines" fs = some (.jarr ms)
        ∧ JValue.jstr m ∈ ms ∧ List.lookup m IP = none)) :
    load daemons IP (.jobj fs) = .error (.invalid .unknownReferenceName) := by
  have hT := checkSchema_names_false_of_unknown hbad
  have hval : validate_config (daemons.map Prod.fst) (IP.map Prod.fst)
      (.jobj fs) = .error .unknownReferenceName := by
    rw [validate_config, if_neg (by simp [hT]), if_pos hstruct]
  rw [load, hval]

/-- Witness for C4 at a document with an unregistered daemon name. -/
theorem c4_witness :
    load daemons0 machines0 (.jobj unknownDaemonFields)
      = .error (.invalid .unknownReferenceName) :=
  c4_unknown_reference_name daemons0 machines0 unknownDaemonFields
    (by decide)
    (Or.inl ⟨"missing_daemon", rfl, rfl⟩)

/-- C5: a document missing a required top-level key, or containing a
top-level key not listed in the schema, is rejected with a
SchemaViolation. -/
theorem c5_key_violations_rejected (daemons IP : List (String × Nat))
    (fs : List (String × JValue))
    (hbad : (∃ k, k ∈ requiredKeys ∧ List.lookup k fs = none)
      ∨ (∃ kv, kv ∈ fs ∧ List.lookup kv.1 topProperties = none)) :
    load daemons IP (.jobj fs) = .error (.invalid .schemaViolation) := by
  have hT := @checkSchema_false_of_violation true (daemons.map Prod.fst)
    (IP.map Prod.fst) fs hbad
  have hF := @checkSchema_false_of_violation false (daemons.map Prod.fst)
    (IP.map Prod.fst) fs hbad
  have hval : validate_config (daemons.map Prod.fst) (IP.map Prod.fst)
      (.jobj fs) = .error .schemaViolation := by
    rw [validate_config, if_neg (by simp [hT]), if_neg (by simp [hF])]
  rw [load, hval]

/-- Witness for C5 at the empty document (all required keys missing). -/
theorem c5_witness :
    load daemons0 machines0 (.jobj []) = .error (.invalid .schemaViolation) :=
  c5_key_violations_rejected daemons0 machines0 []
    (Or.inl ⟨"daemon", by decide, rfl⟩)

/-- C9 counterexample: the claim says an otherwise-valid document with an
empty `pwi_host` is rejected, but the schema constrains `pwi_host` only to
be a string, so `load` accepts the document below. -/
theorem c9_counterexample :
    List.lookup "pwi_host" emptyHostFields = some (.jstr "")
    ∧ (load daemons0 machines0 (.jobj emptyHostFields)).toOption.isSome
        = true :=
  ⟨rfl, by decide⟩

/-- C9 (amended): `pwi_host` must be a string, but no non-emptiness is
enforced: a conforming document whose `pwi_host` is the empty string loads
successfully, with the empty string stored in the `Config`. -/
theorem c9_empty_pwi_host_accepted (daemons IP : List (String × Nat))
    (fs : List (String × JValue))
    (h : conforms (daemons.map Prod.fst) (IP.map Prod.fst) (.jobj fs)
      = true)
    (hhost : List.lookup "pwi_host" fs = some (.jstr "")) :
    ∃ cfg, load daemons IP (.jobj fs) = .ok cfg ∧ cfg.pwi_host = "" := by
  rw [conforms, Bool.and_eq_true] at h
  obtain ⟨cfg, dname, names, hload, _, _, _, _, _, hhost', -⟩ :=
    load_ok_of_valid h.1
  refine ⟨cfg, hload, ?_⟩
  rw [hhost] at hhost'
  injection hhost' with h1
  injection h1 with h2
  exact h2.symm

/-- Witness for C9 (amended) at the concrete empty-host document. -/
theorem c9_witness :
    ∃ cfg, load daemons0 machines0 (.jobj emptyHostFields) = .ok cfg
      ∧ cfg.pwi_host = "" :=
  c9_empty_pwi_host_accepted daemons0 machines0 emptyHostFields
    (by decide) rfl
